import Mathlib

/-!
Verification of the pharmacogenomic interpretation core:
a shallow embedding of `src/lib/vcfParser.ts` and
`src/lib/pharmacogenomics.ts`, followed by theorems about the extraction,
gene-interpretation and risk-resolution pipeline.

Strings keep the JavaScript semantics of the source: `split` yields empty
fields and maps the empty string to `[""]`, `parseInt` ignores trailing
garbage and returns `NaN` (modelled as `none`) when no digits are found,
`replace` with a string pattern rewrites only the first occurrence, and a
`Map` built by repeated `set` keeps the last binding for a key.
Fractional activity scores are modelled exactly as integers in half-units
(see the note before the gene interpreters).
-/

namespace PGx

/-- JS-style split on a character class: splitting the empty string yields
`[""]`, and separators at either end produce empty fields. The first
argument accumulates the current field in reverse. -/
def splitOnPred (isSep : Char → Bool) : List Char → List Char → List String
  | acc, [] => [String.mk acc.reverse]
  | acc, c :: rest =>
    if isSep c then String.mk acc.reverse :: splitOnPred isSep [] rest
    else splitOnPred isSep (c :: acc) rest

/-- Split a string at every character satisfying `isSep` (JS `String.split`). -/
def splitBy (isSep : Char → Bool) (s : String) : List String :=
  splitOnPred isSep [] s.toList

/-- JS `line.split("\t")`. -/
def splitTab (s : String) : List String := splitBy (fun c => c == '\t') s

/-- JS `col.split(":")`. -/
def splitColon (s : String) : List String := splitBy (fun c => c == ':') s

/-- JS `idCol.split(";")`. -/
def splitSemi (s : String) : List String := splitBy (fun c => c == ';') s

/-- JS `gt.split(/[/|]/)`. -/
def splitSlashPipe (s : String) : List String :=
  splitBy (fun c => c == '/' || c == '|') s

/-- Helper for `splitLines`: JS `text.split(/\r?\n/)` treats a carriage
return as part of the separator only when a newline follows it. The
accumulator holds the current field in reverse. -/
def splitLinesAux : List Char → List Char → List String
  | acc, [] => [String.mk acc.reverse]
  | acc, '\n' :: rest =>
    (match acc with
     | '\r' :: acc2 => String.mk acc2.reverse
     | _ => String.mk acc.reverse) :: splitLinesAux [] rest
  | acc, c :: rest => splitLinesAux (c :: acc) rest

/-- JS `vcfText.split(/\r?\n/)`. -/
def splitLines (s : String) : List String := splitLinesAux [] s.toList

/-- Numeric value of a list of decimal digits. -/
def digitsToNat (ds : List Char) : Nat :=
  ds.foldl (fun n c => 10 * n + (c.toNat - '0'.toNat)) 0

/-- JS `parseInt(s, 10)`: skip leading whitespace, read an optional sign and
then the longest decimal-digit prefix, ignoring any trailing characters;
`none` models `NaN` (no digits found). -/
def jsParseInt (s : String) : Option Int :=
  let cs := s.toList.dropWhile Char.isWhitespace
  match cs with
  | '-' :: rest =>
    let ds := rest.takeWhile Char.isDigit
    if ds.isEmpty then none else some (-(digitsToNat ds : Int))
  | '+' :: rest =>
    let ds := rest.takeWhile Char.isDigit
    if ds.isEmpty then none else some (digitsToNat ds : Int)
  | _ =>
    let ds := cs.takeWhile Char.isDigit
    if ds.isEmpty then none else some (digitsToNat ds : Int)

/-- Boolean list-prefix test (JS `String.startsWith` on the char level). -/
def prefixOfL : List Char → List Char → Bool
  | [], _ => true
  | _ :: _, [] => false
  | a :: as, b :: bs => a == b && prefixOfL as bs

/-- JS `s.startsWith(pre)`. -/
def startsWithStr (s pre : String) : Bool := prefixOfL pre.toList s.toList

/-- Boolean contiguous-sublist test on characters. -/
def containsL (pat : List Char) : List Char → Bool
  | [] => prefixOfL pat []
  | c :: rest => prefixOfL pat (c :: rest) || containsL pat rest

/-- JS `/pat/i.test(s)` for a literal lowercase pattern: case-insensitive
substring containment (lower-casing character by character). -/
def containsCI (s pat : String) : Bool :=
  containsL (pat.toList.map Char.toLower) (s.toList.map Char.toLower)

/-- JS `s.charAt(0).toUpperCase() + s.slice(1)`. -/
def capitalize1 (s : String) : String :=
  match s.toList with
  | [] => ""
  | c :: rest => String.mk (c.toUpper :: rest)

/-- JS `s.replace("|", "/")`: only the first occurrence is replaced. -/
def replaceFirstBar : List Char → List Char
  | [] => []
  | '|' :: rest => '/' :: rest
  | c :: rest => c :: replaceFirstBar rest

/-- JS `s.trim()`: drop whitespace from both ends. -/
def trimStr (s : String) : String :=
  String.mk
    (((s.toList.dropWhile Char.isWhitespace).reverse.dropWhile
        Char.isWhitespace).reverse)

/-- JS `Array.indexOf`: index of the first occurrence, `-1` when absent. -/
def idxOf (xs : List String) (x : String) : Int :=
  match xs.findIdx? (· == x) with
  | some i => (i : Int)
  | none => -1

/-- JS `Math.max` on two numbers (used on integer-valued quantities). -/
def jsMaxI (a b : Int) : Int := if a ≤ b then b else a

/-- JS `Math.min` on two numbers (used on integer-valued quantities). -/
def jsMinI (a b : Int) : Int := if a ≤ b then a else b

/-- JS `Math.max` on two non-negative integer counts. -/
def jsMaxN (a b : Nat) : Nat := if a ≤ b then b else a

/-!
Every allele weight, activity score and threshold in the source is an
integer multiple of 0.5, so scores are represented exactly as integers in
HALF-UNITS: a source value `v` appears as `2 * v` below (0 ↦ 0, 0.5 ↦ 1,
1 ↦ 2, 1.5 ↦ 3, and thresholds 0.5 ↦ 1, 1.5 ↦ 3, 2.5 ↦ 5). This keeps all
arithmetic kernel-computable; the DPYD theorem restates its score in `ℚ`
and proves the half-unit encoding matches the fractional formula.
-/

/-- One extracted genotype call (interface `VcfVariant` of `vcfParser.ts`);
`pos` is `none` when the position column fails to parse (`NaN`). -/
structure VcfVariant where
  chrom : String
  pos : Option Int
  ref : String
  alt : String
  rsid : String
  genotype : String
deriving Repr, DecidableEq

/-- One marker-level finding (interface `VariantRow` of `types/analysis.ts`).
The source field `function` is named `fclass` here. -/
structure VariantRow where
  rsid : String
  gene : String
  allele : String
  fclass : String
deriving Repr, DecidableEq

/-- One iteration of the line loop of `parseVcfForRsids`: lines starting
`##` are skipped, other `#` lines update the GT sub-field index from the
9th column of the header, data lines with fewer than 8 tab-separated
columns are skipped, and a data line whose identifier is in the target set
emits a variant. The source variable `formatIdx` is written but never read,
so it is not part of the state. -/
def vcfStep (targetRsids : List String) (gtIdx : Int) (line : String) :
    Int × Option VcfVariant :=
  if startsWithStr line "##" then (gtIdx, none)
  else if startsWithStr line "#" then
    match (splitTab (line.drop 1)).get? 8 with
    | some formatCol =>
      if formatCol ≠ "" then (idxOf (splitColon formatCol) "GT", none)
      else (gtIdx, none)
    | none => (gtIdx, none)
  else
    let parts := splitTab line
    if parts.length < 8 then (gtIdx, none)
    else
      let chrom := parts.getD 0 ""
      let pos := jsParseInt (parts.getD 1 "")
      let ref := parts.getD 3 ""
      let alt := parts.getD 4 ""
      let idCol := parts.getD 2 ""
      let ids := (splitSemi idCol).filter (fun s => s != "")
      let rsid := ((ids.find? (fun i => startsWithStr i "rs")).getD
        (if idCol ≠ "" ∧ idCol ≠ "." then idCol else ""))
      if ¬ targetRsids.contains rsid then (gtIdx, none)
      else
        let genotype :=
          if 0 ≤ gtIdx ∧ 9 < parts.length then
            match (splitColon (parts.getD 9 "")).get? gtIdx.toNat with
            | some g => String.mk (replaceFirstBar g.toList)
            | none => "./."
          else "./."
        (gtIdx, some ⟨chrom, pos, ref, alt, rsid, genotype⟩)

/-- The line loop of `parseVcfForRsids`, emitting matches in order. -/
def vcfRun (targetRsids : List String) : Int → List String → List VcfVariant
  | _, [] => []
  | gtIdx, line :: rest =>
    match vcfStep targetRsids gtIdx line with
    | (gtIdx2, some v) => v :: vcfRun targetRsids gtIdx2 rest
    | (gtIdx2, none) => vcfRun targetRsids gtIdx2 rest

/-- Function `parseVcfForRsids` of `vcfParser.ts`. The JS `Set` of target
rsids is modelled by a list queried with `contains`. -/
def parseVcfForRsids (vcfText : String) (targetRsids : List String) :
    List VcfVariant :=
  vcfRun targetRsids (-1) (splitLines vcfText)

/-- Function `parseVcf` of `vcfParser.ts`: trims each requested rsid and
defers to `parseVcfForRsids`. -/
def parseVcf (vcfText : String) (targetRsids : List String) : List VcfVariant :=
  parseVcfForRsids vcfText (targetRsids.map trimStr)

/-- Function `countVariantAlleles` of `pharmacogenomics.ts`: split the
genotype on `/` or `|`, treat `.` as `NaN`, and count the fields that parse
to an integer at least 1. -/
def countVariantAlleles (gt : String) : Nat :=
  (((splitSlashPipe gt).map
      (fun x => if x = "." then none else jsParseInt x)).filter
    (fun p => match p with
      | some k => decide (1 ≤ k)
      | none => false)).length

/-- Last-wins lookup: the JS `Map` built by `byRsid.set(v.rsid, v)` over the
variant list keeps the final binding for each rsid. -/
def lookupLast (variants : List VcfVariant) (rsid : String) : Option VcfVariant :=
  variants.foldl (fun acc v => if v.rsid = rsid then some v else acc) none

/-- Source expression `byRsid.get(rsid)?.genotype ?? "./."`. -/
def genotypeAt (variants : List VcfVariant) (rsid : String) : String :=
  ((lookupLast variants rsid).map VcfVariant.genotype).getD "./."

/-- Result record shared by the diplotype-producing gene interpreters. -/
structure GeneInterp where
  diplotype : String
  phenotype : String
  activityLevel : Nat
  variantRows : List VariantRow
deriving Repr, DecidableEq

/-! CYP2C19 (table `CYP2C19_VARIANTS` and `interpretCYP2C19`). -/

/-- Catalog key order of `CYP2C19_VARIANTS`. -/
def CYP2C19_RSIDS : List String := ["rs4244285", "rs4986893", "rs12248560"]

/-- Allele label and functional class per catalog rsid (only ever applied to
members of `CYP2C19_RSIDS`, so the last entry doubles as the fallthrough). -/
def cyp2c19Variant (rsid : String) : String × String :=
  if rsid = "rs4244285" then ("*2", "No function")
  else if rsid = "rs4986893" then ("*3", "No function")
  else ("*17", "Increased function")

/-- Row pushed by the `interpretCYP2C19` loop for one catalog marker. -/
def cyp2c19Row (variants : List VcfVariant) (rsid : String) : VariantRow :=
  if countVariantAlleles (genotypeAt variants rsid) = 0 then
    ⟨rsid, "CYP2C19", "*1", "Normal function"⟩
  else ⟨rsid, "CYP2C19", (cyp2c19Variant rsid).1, (cyp2c19Variant rsid).2⟩

/-- The `nLoF` accumulator of `interpretCYP2C19`: variant alleles at non-`*17`
catalog markers. -/
def cyp2c19LoF (variants : List VcfVariant) : Nat :=
  (CYP2C19_RSIDS.map (fun rsid =>
    let n := countVariantAlleles (genotypeAt variants rsid)
    if n = 0 then 0
    else if (cyp2c19Variant rsid).1 = "*17" then 0 else n)).sum

/-- The `nGain` accumulator of `interpretCYP2C19`: variant alleles at the
`*17` marker. -/
def cyp2c19Gain (variants : List VcfVariant) : Nat :=
  (CYP2C19_RSIDS.map (fun rsid =>
    let n := countVariantAlleles (genotypeAt variants rsid)
    if n = 0 then 0
    else if (cyp2c19Variant rsid).1 = "*17" then n else 0)).sum

/-- Function `interpretCYP2C19` of `pharmacogenomics.ts`. -/
def interpretCYP2C19 (variants : List VcfVariant) : GeneInterp :=
  let rows := CYP2C19_RSIDS.map (cyp2c19Row variants)
  let nLoF := cyp2c19LoF variants
  let nGain := cyp2c19Gain variants
  let nRef : Int := jsMaxI 0 (2 - (nLoF : Int) - (nGain : Int))
  let score : Int := nRef * 2 + (nGain : Int) * 3
  let diplotype :=
    if nLoF ≥ 2 then "*2/*2"
    else if nLoF = 1 ∧ nGain ≥ 2 then "*2/*17"
    else if nLoF = 1 ∧ nGain = 1 then "*2/*17"
    else if nLoF = 1 then "*1/*2"
    else if nGain ≥ 2 then "*17/*17"
    else if nGain = 1 then "*1/*17"
    else "*1/*1"
  let pa : String × Nat :=
    if score = 0 then ("Poor Metabolizer", 0)
    else if score ≤ 2 then ("Intermediate Metabolizer", 1)
    else if score < 5 then ("Normal Metabolizer", 2)
    else ("Ultrarapid Metabolizer", 3)
  { diplotype := diplotype
    phenotype := pa.1
    activityLevel := pa.2
    variantRows :=
      if rows.isEmpty then [⟨"—", "CYP2C19", "*1", "Normal function"⟩]
      else rows }

/-! CYP2C9 (`CYP2C9_VARIANTS`, `cyp2c9AlleleActivity`, `interpretCYP2C9`). -/

/-- Catalog key order of `CYP2C9_VARIANTS`. -/
def CYP2C9_RSIDS : List String := ["rs1799853", "rs1057910"]

/-- Allele label and functional class per CYP2C9 catalog rsid. -/
def cyp2c9Variant (rsid : String) : String × String :=
  if rsid = "rs1799853" then ("*2", "Decreased function")
  else ("*3", "No function")

/-- Function `cyp2c9AlleleActivity` in half-units: `*1` is 1 (here 2),
`*2` is 0.5 (here 1), `*3` is 0, anything else 0.5 (here 1). -/
def cyp2c9AlleleActivity (allele : String) : Int :=
  if allele = "*1" then 2
  else if allele = "*2" then 1
  else if allele = "*3" then 0
  else 1

/-- Row pushed by the `interpretCYP2C9` loop for one catalog marker. -/
def cyp2c9Row (variants : List VcfVariant) (rsid : String) : VariantRow :=
  if countVariantAlleles (genotypeAt variants rsid) = 0 then
    ⟨rsid, "CYP2C9", "*1", "Normal function"⟩
  else ⟨rsid, "CYP2C9", (cyp2c9Variant rsid).1, (cyp2c9Variant rsid).2⟩

/-- The `alleleScores` array of `interpretCYP2C9` before padding: each
catalog marker contributes one weight 1 on a reference call, or its variant
weight once per observed variant allele, in catalog order. -/
def cyp2c9Scores (variants : List VcfVariant) : List Int :=
  (CYP2C9_RSIDS.map (fun rsid =>
    let n := countVariantAlleles (genotypeAt variants rsid)
    if n = 0 then [(2 : Int)]
    else List.replicate n (cyp2c9AlleleActivity (cyp2c9Variant rsid).1))).flatten

/-- Source loop `while (alleleScores.length < 2) alleleScores.push(1)`:
the padding weight 1 is 2 in half-units. -/
def padTwo (scores : List Int) : List Int :=
  scores ++ List.replicate (2 - scores.length) 2

/-- Function `interpretCYP2C9` of `pharmacogenomics.ts`. -/
def interpretCYP2C9 (variants : List VcfVariant) : GeneInterp :=
  let rows := CYP2C9_RSIDS.map (cyp2c9Row variants)
  let alleleScores := padTwo (cyp2c9Scores variants)
  let score : Int := ((alleleScores.take 2).foldl (· + ·) 0)
  let a1 := alleleScores.getD 0 2
  let a2 := alleleScores.getD 1 2
  let diplotype :=
    if a1 = 0 ∧ a2 = 0 then "*3/*3"
    else if a1 = 0 ∧ a2 = 1 then "*2/*3"
    else if a1 = 1 ∧ a2 = 0 then "*2/*3"
    else if a1 = 0 ∧ a2 = 2 then "*1/*3"
    else if a1 = 2 ∧ a2 = 0 then "*1/*3"
    else if a1 = 1 ∧ a2 = 1 then "*2/*2"
    else if a1 = 1 ∧ a2 = 2 then "*1/*2"
    else if a1 = 2 ∧ a2 = 1 then "*1/*2"
    else "*1/*1"
  let pa : String × Nat :=
    if score ≤ 1 then ("Poor Metabolizer", 0)
    else if score ≤ 3 then ("Intermediate Metabolizer", 1)
    else ("Normal Metabolizer", 2)
  { diplotype := diplotype
    phenotype := pa.1
    activityLevel := pa.2
    variantRows :=
      if rows.isEmpty then [⟨"—", "CYP2C9", "*1", "Normal function"⟩]
      else rows }

/-! CYP2D6 (`CYP2D6_VARIANTS`, `cyp2d6AlleleActivity`, `interpretCYP2D6`). -/

/-- Catalog key order of `CYP2D6_VARIANTS`. -/
def CYP2D6_RSIDS : List String :=
  ["rs3892097", "rs5030655", "rs1065852", "rs28371725"]

/-- Allele label and functional class per CYP2D6 catalog rsid. -/
def cyp2d6Variant (rsid : String) : String × String :=
  if rsid = "rs3892097" then ("*4", "No function")
  else if rsid = "rs5030655" then ("*6", "No function")
  else if rsid = "rs1065852" then ("*10", "Decreased function")
  else ("*41", "Decreased function")

/-- Function `cyp2d6AlleleActivity` in half-units: `*1` is 1 (here 2),
`*4`/`*6` are 0, `*10`/`*41` are 0.5 (here 1), anything else 0.5 (here 1). -/
def cyp2d6AlleleActivity (allele : String) : Int :=
  if allele = "*1" then 2
  else if allele = "*4" ∨ allele = "*6" then 0
  else if allele = "*10" ∨ allele = "*41" then 1
  else 1

/-- Row pushed by the `interpretCYP2D6` loop for one catalog marker. -/
def cyp2d6Row (variants : List VcfVariant) (rsid : String) : VariantRow :=
  if countVariantAlleles (genotypeAt variants rsid) = 0 then
    ⟨rsid, "CYP2D6", "*1", "Normal function"⟩
  else ⟨rsid, "CYP2D6", (cyp2d6Variant rsid).1, (cyp2d6Variant rsid).2⟩

/-- The `alleleScores` array of `interpretCYP2D6` before padding, built in
catalog order exactly as in `cyp2c9Scores`. -/
def cyp2d6Scores (variants : List VcfVariant) : List Int :=
  (CYP2D6_RSIDS.map (fun rsid =>
    let n := countVariantAlleles (genotypeAt variants rsid)
    if n = 0 then [(2 : Int)]
    else List.replicate n (cyp2d6AlleleActivity (cyp2d6Variant rsid).1))).flatten

/-- The two weights `alleleScores.slice(0, 2)` that `interpretCYP2D6` uses
for both the score and the printed diplotype. -/
def cyp2d6Selected (variants : List VcfVariant) : List Int :=
  (padTwo (cyp2d6Scores variants)).take 2

/-- Source rendering `a === 0 ? "*4" : a === 0.5 ? "*10" : "*1"` (half-unit
weights: 0.5 is 1 here). -/
def cyp2d6WeightName (a : Int) : String :=
  if a = 0 then "*4" else if a = 1 then "*10" else "*1"

/-- Function `interpretCYP2D6` of `pharmacogenomics.ts`. -/
def interpretCYP2D6 (variants : List VcfVariant) : GeneInterp :=
  let rows := CYP2D6_RSIDS.map (cyp2d6Row variants)
  let score : Int := ((cyp2d6Selected variants).foldl (· + ·) 0)
  let pa : String × Nat :=
    if score = 0 then ("Poor Metabolizer", 0)
    else if score ≤ 2 then ("Intermediate Metabolizer", 1)
    else if score < 5 then ("Normal Metabolizer", 2)
    else ("Ultrarapid Metabolizer", 3)
  let names := (cyp2d6Selected variants).map cyp2d6WeightName
  let diplotype := (names.getD 0 "*1") ++ "/" ++ (names.getD 1 "*1")
  { diplotype := diplotype
    phenotype := pa.1
    activityLevel := pa.2
    variantRows :=
      if rows.isEmpty then [⟨"—", "CYP2D6", "*1", "Normal function"⟩]
      else rows }

/-! HLA-B (`interpretHLA`): carrier status keyed by drug, not gene. -/

def HLA_ABACAVIR_RSID : String := "rs2395029"

def HLA_CARBAMAZEPINE_RSID : String := "rs2844682"

/-- Result record of `interpretHLA`. -/
structure HlaInterp where
  phenotype : String
  activityLevel : Nat
  variantRows : List VariantRow
  positive : Bool
deriving Repr, DecidableEq

/-- Function `interpretHLA` of `pharmacogenomics.ts`: drug-specific marker,
first matching variant (JS `Array.find`), any variant allele means carrier. -/
def interpretHLA (variants : List VcfVariant) (drugKey : String) : HlaInterp :=
  let rsid := if containsCI drugKey "abacavir" then HLA_ABACAVIR_RSID
    else HLA_CARBAMAZEPINE_RSID
  let alleleName := if containsCI drugKey "abacavir" then "HLA-B*57:01"
    else "HLA-B*15:02"
  let v := variants.find? (fun x => x.rsid == rsid)
  let gt := (v.map VcfVariant.genotype).getD "./."
  let varCount := countVariantAlleles gt
  let positive : Bool := decide (1 ≤ varCount)
  let variantRows : List VariantRow :=
    match v with
    | some vv => [⟨vv.rsid, "HLA-B", alleleName,
        if positive then "Risk allele present" else "Negative"⟩]
    | none => [⟨rsid, "HLA-B", alleleName, "Not genotyped in this file"⟩]
  { phenotype := if positive then "Carrier (at-risk)" else "Negative"
    activityLevel := if positive then 0 else 2
    variantRows := variantRows
    positive := positive }

/-! DPYD (`DPYD_VARIANTS`, `interpretDPYD`): capped-subtraction model. -/

/-- Catalog key order of `DPYD_VARIANTS`. -/
def DPYD_RSIDS : List String := ["rs3918290", "rs55886062", "rs67376798"]

/-- Allele label, functional class and activity (half-units: 0.5 is 1)
per DPYD catalog rsid. -/
def dpydVariant (rsid : String) : String × String × Int :=
  if rsid = "rs3918290" then ("*2A", "No function", 0)
  else if rsid = "rs55886062" then ("*13", "No function", 0)
  else ("c.2846A>T", "Decreased function", 1)

/-- The `nNoFunc` accumulator of `interpretDPYD` before the cap: maximum
variant-allele count over the no-function catalog markers. -/
def dpydNoFuncRaw (variants : List VcfVariant) : Nat :=
  DPYD_RSIDS.foldl (fun n rsid =>
    if (dpydVariant rsid).2.2 = 0 then
      jsMaxN n (countVariantAlleles (genotypeAt variants rsid))
    else n) 0

/-- The `nDec` accumulator of `interpretDPYD`: maximum variant-allele count
over the decreased-function catalog markers. -/
def dpydDec (variants : List VcfVariant) : Nat :=
  DPYD_RSIDS.foldl (fun n rsid =>
    if (dpydVariant rsid).2.2 = 0 then n
    else jsMaxN n (countVariantAlleles (genotypeAt variants rsid))) 0

/-- The `activitySum` of `interpretDPYD` in half-units: the source value is
`max(0, 2 - nNoFunc - 0.5 * min(2 - nNoFunc, nDec))` with `nNoFunc` capped
at 2, and this returns twice that (both operands of the inner `min` are
whole numbers of alleles, so only the outer expression carries halves). -/
def dpydActivityH (variants : List VcfVariant) : Int :=
  let nNoFunc : Int := jsMinI 2 ((dpydNoFuncRaw variants : Nat) : Int)
  jsMaxI 0 (4 - 2 * nNoFunc -
    jsMinI (2 - nNoFunc) ((dpydDec variants : Nat) : Int))

/-- Function `interpretDPYD` of `pharmacogenomics.ts`. Rows are pushed for
every catalog marker with the catalog allele and class, before counting. -/
def interpretDPYD (variants : List VcfVariant) : GeneInterp :=
  let rows := DPYD_RSIDS.map (fun rsid =>
    (⟨rsid, "DPYD", (dpydVariant rsid).1, (dpydVariant rsid).2.1⟩ : VariantRow))
  let activitySum := dpydActivityH variants
  let pa : String × Nat :=
    if activitySum ≤ 0 then ("DPD Deficient", 0)
    else if activitySum < 3 then ("DPD Intermediate", 1)
    else ("DPD Normal", 2)
  let diplotype :=
    if activitySum ≤ 0 then "*2A/*2A or variant/variant"
    else if activitySum < 3 then "Variant carrier"
    else "*1/*1"
  { diplotype := diplotype
    phenotype := pa.1
    activityLevel := pa.2
    variantRows :=
      if rows.isEmpty then [⟨"—", "DPYD", "Normal", "Normal function"⟩]
      else rows }

/-! Risk resolution and dispatch. -/

/-- The `RiskLevel` union type of `RiskBadge.tsx`. -/
inductive Risk where
  | safe
  | adjust
  | toxic
  | ineffective
deriving Repr, DecidableEq

/-- Return record of the `getRiskFor...` resolvers. -/
structure RiskInfo where
  risk : Risk
  severity : String
  confidence : Nat
deriving Repr, DecidableEq

/-- Function `getRiskForCYP2C9` of `pharmacogenomics.ts`. -/
def getRiskForCYP2C9 (drug phenotype : String) (activityLevel : Nat) : RiskInfo :=
  if phenotype = "Poor Metabolizer" then
    ⟨.toxic, "Poor metabolizer — significantly reduced metabolism of " ++ drug
      ++ ". High bleeding risk with warfarin. Avoid or use alternative; if essential, use very low dose with close monitoring per CPIC.", 92⟩
  else if phenotype = "Intermediate Metabolizer" then
    ⟨.adjust, "Intermediate metabolizer — reduced metabolism of " ++ drug
      ++ ". Consider dose reduction (e.g. warfarin) per CPIC guidelines.", 88⟩
  else
    ⟨.safe, "Normal metabolizer — standard dosing of " ++ drug
      ++ " is typically appropriate based on CYP2C9 genotype.", 90⟩

/-- Function `getRiskForCYP2D6` of `pharmacogenomics.ts`. -/
def getRiskForCYP2D6 (drug phenotype : String) (activityLevel : Nat) : RiskInfo :=
  if phenotype = "Poor Metabolizer" then
    ⟨.ineffective, "Poor metabolizer — little or no conversion to active metabolite for "
      ++ drug ++ ". Consider alternative (e.g. non-codeine analgesic or alternative to tamoxifen) per CPIC.", 90⟩
  else if phenotype = "Intermediate Metabolizer" then
    ⟨.adjust, "Intermediate metabolizer — reduced metabolism of " ++ drug
      ++ ". Consider dose adjustment or alternative per CPIC guidelines.", 85⟩
  else if phenotype = "Ultrarapid Metabolizer" then
    ⟨.adjust, "Ultrarapid metabolizer — increased conversion to active metabolite. Monitor for toxicity; consider dose reduction per CPIC.", 82⟩
  else
    ⟨.safe, "Normal metabolizer — standard dosing of " ++ drug
      ++ " is typically appropriate based on CYP2D6 genotype.", 88⟩

/-- Function `getRiskForHLA` of `pharmacogenomics.ts`. -/
def getRiskForHLA (drugKey : String) (positive : Bool) : RiskInfo :=
  if positive then
    if containsCI drugKey "abacavir" then
      ⟨.toxic, "HLA-B*57:01 positive — high risk of abacavir hypersensitivity. Do not use abacavir. Use alternative antiretroviral per CPIC/FDA.", 98⟩
    else
      ⟨.toxic, "HLA-B*15:02 positive — increased risk of carbamazepine-induced SJS/TEN. Avoid carbamazepine unless benefits clearly outweigh risks; consider alternative per CPIC.", 95⟩
  else
    ⟨.safe, "HLA risk allele negative — standard use of " ++ capitalize1 drugKey
      ++ " is appropriate from a pharmacogenomic standpoint.", 95⟩

/-- Function `getRiskForDPYD` of `pharmacogenomics.ts`. -/
def getRiskForDPYD (drug phenotype : String) (activityLevel : Nat) : RiskInfo :=
  if phenotype = "DPD Deficient" ∨ activityLevel = 0 then
    ⟨.toxic, "DPD deficient — high risk of severe fluoropyrimidine toxicity. Do not use full dose; consider alternative or substantial dose reduction with DPYD-guided dosing per CPIC.", 95⟩
  else if phenotype = "DPD Intermediate" ∨ activityLevel = 1 then
    ⟨.adjust, "DPD intermediate — increased toxicity risk with fluorouracil/capecitabine. Start with 50% dose reduction and titrate per CPIC.", 88⟩
  else
    ⟨.safe, "DPD normal — standard dosing of " ++ drug
      ++ " is appropriate based on DPYD genotype.", 90⟩

/-- Function `getRiskForCYP2C19` of `pharmacogenomics.ts`. The prodrug flag
is the case-insensitive test `/clopidogrel/i.test(drug)`. -/
def getRiskForCYP2C19 (drug phenotype : String) (activityLevel : Nat) : RiskInfo :=
  let isProdrug := containsCI drug "clopidogrel"
  if phenotype = "Poor Metabolizer" then
    if isProdrug then
      ⟨.adjust, "Poor metabolizer — significantly reduced drug activation. Consider alternative therapy (e.g., prasugrel or ticagrelor for antiplatelet therapy).", 92⟩
    else
      ⟨.adjust, "Poor metabolizer — altered metabolism of " ++ drug
        ++ ". Consider dose adjustment or alternative based on CPIC guidelines.", 88⟩
  else if phenotype = "Intermediate Metabolizer" then
    if isProdrug then
      ⟨.adjust, "Intermediate metabolizer — reduced drug activation expected. Consider alternative antiplatelet therapy or monitor response.", 87⟩
    else
      ⟨.adjust, "Intermediate metabolizer — may have reduced metabolism of "
        ++ drug ++ ". Consider dose adjustment per CPIC guidelines.", 85⟩
  else if phenotype = "Ultrarapid Metabolizer" then
    if isProdrug then
      ⟨.safe, "Ultrarapid metabolizer — increased activation possible; standard dosing often appropriate. Monitor for efficacy.", 82⟩
    else
      ⟨.safe, "Ultrarapid metabolizer — increased metabolism of " ++ drug
        ++ ". Standard dosing typically appropriate.", 80⟩
  else
    ⟨.safe, "Normal metabolizer — standard dosing of " ++ drug
      ++ " is typically appropriate based on CYP2C19 genotype.", 90⟩

/-- The exported map `DRUG_GENE_MAP`. -/
def DRUG_GENE_MAP : List (String × String) :=
  [("clopidogrel", "CYP2C19"), ("codeine", "CYP2D6"), ("warfarin", "CYP2C9"),
   ("tamoxifen", "CYP2D6"), ("simvastatin", "CYP2C19"), ("abacavir", "HLA-B"),
   ("carbamazepine", "HLA-B"), ("fluorouracil", "DPYD")]

/-- The property names a plain JS object literal inherits from
`Object.prototype`: bracket access finds these even when they are not own
entries, and their values are functions (for `__proto__`, an object) —
truthy and not equal to any string. -/
def OBJECT_PROTOTYPE_MEMBERS : List String :=
  ["constructor", "hasOwnProperty", "isPrototypeOf", "propertyIsEnumerable",
   "toLocaleString", "toString", "valueOf", "__proto__", "__defineGetter__",
   "__defineSetter__", "__lookupGetter__", "__lookupSetter__"]

/-- Runtime value of `DRUG_GENE_MAP[drugKey] ?? "CYP2C19"`. The TS type says
`string`, but at runtime the lookup can also yield a function or object
inherited from `Object.prototype`; such a value is truthy (so `??` does not
fire) and compares unequal to every gene-name string under `===`. -/
inductive GeneVal where
  /-- A genuine string: an own map entry, or the `"CYP2C19"` default. -/
  | str (s : String)
  /-- The inherited `Object.prototype` member of the given name. -/
  | protoMember (name : String)
deriving Repr, DecidableEq

/-- JS string interpolation of a gene value (used by the template literals
in `noGenotypeResult` and the not-implemented fallback). An inherited
member prints engine-dependent source text such as
`function toString() { [native code] }`; no theorem depends on that case,
which is modelled by a tagged placeholder. -/
def GeneVal.render : GeneVal → String
  | .str s => s
  | .protoMember name => "[Object.prototype." ++ name ++ "]"

/-- Source expression `DRUG_GENE_MAP[drugKey] ?? "CYP2C19"`: own entries
first, then the `Object.prototype` chain (on which `??` does not fire),
then the `"CYP2C19"` default. -/
def drugGene (drugKey : String) : GeneVal :=
  match DRUG_GENE_MAP.lookup drugKey with
  | some g => .str g
  | none =>
    if OBJECT_PROTOTYPE_MEMBERS.contains drugKey then .protoMember drugKey
    else .str "CYP2C19"

/-- The table lookup `GENE_RSIDS[gene]` of `getRsidsForDrug`. A
`protoMember` gene is coerced to its source-text property key, which is not
an entry of the table, so the lookup misses and `?? CYP2C19_RSIDS` fires.
(A gene STRING naming an inherited member cannot arise from `drugGene`,
whose string range is the five own map values and the default, all own
keys of this table, so string lookup is modelled as own-entry only.) -/
def GENE_RSIDS (gene : GeneVal) : Option (List String) :=
  match gene with
  | .str s =>
    if s = "CYP2C19" then some CYP2C19_RSIDS
    else if s = "CYP2C9" then some CYP2C9_RSIDS
    else if s = "CYP2D6" then some CYP2D6_RSIDS
    else if s = "HLA-B" then some [HLA_ABACAVIR_RSID, HLA_CARBAMAZEPINE_RSID]
    else if s = "DPYD" then some DPYD_RSIDS
    else none
  | .protoMember _ => none

/-- The final interpretation record (interface `PGxInterpretation`). -/
structure PGxInterpretation where
  gene : String
  diplotype : String
  phenotype : String
  activityLevel : Nat
  variants : List VariantRow
  risk : Risk
  severity : String
  confidence : Nat
deriving Repr, DecidableEq

/-- Function `noGenotypeResult`: fixed record returned when the extracted
variant list is empty. Its `gene` parameter is TS-typed `string` but holds
the runtime gene value, interpolated into the record. -/
def noGenotypeResult (gene : GeneVal) (drugName : String) : PGxInterpretation :=
  { gene := gene.render
    diplotype := "—"
    phenotype := "Genotype not determined"
    activityLevel := 1
    variants :=
      [⟨"—", gene.render, "—", "No variants found in file for this gene"⟩]
    risk := .adjust
    severity := "The uploaded file did not contain genotype data for "
      ++ gene.render ++ ". Order " ++ gene.render
      ++ " testing or upload a VCF that includes the relevant markers for "
      ++ drugName ++ "."
    confidence := 0 }

/-- Function `interpretFromVcf` of `pharmacogenomics.ts`: the dispatcher. -/
def interpretFromVcf (vcfVariants : List VcfVariant) (drugKey : String) :
    PGxInterpretation :=
  let gene := drugGene drugKey
  let drugName := capitalize1 drugKey
  if vcfVariants.length = 0 then noGenotypeResult gene drugName
  else if gene = GeneVal.str "CYP2C19" then
    let cyp := interpretCYP2C19 vcfVariants
    let r := getRiskForCYP2C19 drugName cyp.phenotype cyp.activityLevel
    ⟨"CYP2C19", cyp.diplotype, cyp.phenotype, cyp.activityLevel,
      cyp.variantRows, r.risk, r.severity, r.confidence⟩
  else if gene = GeneVal.str "CYP2C9" then
    let cyp := interpretCYP2C9 vcfVariants
    let r := getRiskForCYP2C9 drugName cyp.phenotype cyp.activityLevel
    ⟨"CYP2C9", cyp.diplotype, cyp.phenotype, cyp.activityLevel,
      cyp.variantRows, r.risk, r.severity, r.confidence⟩
  else if gene = GeneVal.str "CYP2D6" then
    let cyp := interpretCYP2D6 vcfVariants
    let r := getRiskForCYP2D6 drugName cyp.phenotype cyp.activityLevel
    ⟨"CYP2D6", cyp.diplotype, cyp.phenotype, cyp.activityLevel,
      cyp.variantRows, r.risk, r.severity, r.confidence⟩
  else if gene = GeneVal.str "HLA-B" then
    let hla := interpretHLA vcfVariants drugKey
    let r := getRiskForHLA drugKey hla.positive
    ⟨"HLA-B", if hla.positive then "Carrier" else "Non-carrier", hla.phenotype,
      hla.activityLevel, hla.variantRows, r.risk, r.severity, r.confidence⟩
  else if gene = GeneVal.str "DPYD" then
    let dpyd := interpretDPYD vcfVariants
    let r := getRiskForDPYD drugName dpyd.phenotype dpyd.activityLevel
    ⟨"DPYD", dpyd.diplotype, dpyd.phenotype, dpyd.activityLevel,
      dpyd.variantRows, r.risk, r.severity, r.confidence⟩
  else
    ⟨gene.render, "*1/*1", "Normal Metabolizer", 2,
      [⟨"—", gene.render, "*1", "Normal function"⟩], .safe,
      "Gene " ++ gene.render
        ++ " is not yet implemented for genotype-based interpretation. Consult clinical guidelines for "
        ++ drugName ++ ".", 50⟩

/-- Function `getRsidsForDrug` of `pharmacogenomics.ts`: markers to extract;
for HLA-B the set is drug-specific. -/
def getRsidsForDrug (drugKey : String) : List String :=
  let gene := drugGene drugKey
  if gene = GeneVal.str "HLA-B" then
    if containsCI drugKey "abacavir" then [HLA_ABACAVIR_RSID]
    else [HLA_CARBAMAZEPINE_RSID]
  else (GENE_RSIDS gene).getD CYP2C19_RSIDS

/-! Concrete inputs used by the closed theorems below. -/

/-- Homozygous no-function call at the CYP2C19 `*2` marker, all other catalog
markers explicitly reference. -/
def c5Variants : List VcfVariant :=
  [⟨"10", some 94781859, "G", "A", "rs4244285", "1/1"⟩,
   ⟨"10", some 94780653, "G", "A", "rs4986893", "0/0"⟩,
   ⟨"10", some 94761900, "C", "T", "rs12248560", "0/0"⟩]

/-- A variant file whose only data line carries a triploid-looking genotype
in the first sample column, with a header that declares the GT sub-field. -/
def c7Text : String :=
  "#CHROM\tPOS\tID\tREF\tALT\tQUAL\tFILTER\tINFO\tGT\tSAMPLE\n1\t100\trs4244285\tG\tA\t.\tPASS\t.\tGT\t1/1/1"

/-- A standard variant file with one matching data line. -/
def c8Text : String :=
  "#CHROM\tPOS\tID\tREF\tALT\tQUAL\tFILTER\tINFO\tFORMAT\tS1\n7\t200\trs1799853\tC\tT\t.\tPASS\t.\tGT\t0/1"

/-- Homozygous no-function DPYD call together with a homozygous
decreased-function call. -/
def c6Variants : List VcfVariant :=
  [⟨"1", some 97915614, "C", "T", "rs3918290", "1/1"⟩,
   ⟨"1", some 97547947, "T", "A", "rs67376798", "1/1"⟩]

/-! Helper lemmas shared by the claim theorems. -/

lemma interpret_nil (drugKey : String) :
    interpretFromVcf [] drugKey =
      noGenotypeResult (drugGene drugKey) (capitalize1 drugKey) := rfl

lemma padTwo_cons_cons (a b : Int) (l : List Int) :
    padTwo (a :: b :: l) = a :: b :: l := by
  unfold padTwo
  have h : 2 - (a :: b :: l).length = 0 := by
    simp only [List.length_cons]
    omega
  rw [h]
  simp

lemma cyp2d6WeightName_getD (l : List Int) (i : Nat) :
    (l.map cyp2d6WeightName).getD i "*1" = cyp2d6WeightName (l.getD i 2) := by
  induction l generalizing i with
  | nil =>
    simp only [List.map_nil, List.getD_nil]
    norm_num [cyp2d6WeightName]
  | cons a t ih =>
    cases i with
    | zero => simp
    | succ j => simpa using ih j

lemma vcfStep_mem_of_emit {targets : List String} {g g2 : Int} {line : String}
    {v : VcfVariant} (h : vcfStep targets g line = (g2, some v)) :
    targets.contains v.rsid = true := by
  unfold vcfStep at h
  dsimp only at h
  by_cases c1 : startsWithStr line "##" = true
  · rw [if_pos c1] at h
    simp at h
  rw [if_neg c1] at h
  by_cases c2 : startsWithStr line "#" = true
  · rw [if_pos c2] at h
    cases e : (splitTab (line.drop 1)).get? 8 with
    | none =>
      rw [e] at h
      simp at h
    | some fc =>
      rw [e] at h
      dsimp only at h
      by_cases c3 : fc ≠ ""
      · rw [if_pos c3] at h
        simp at h
      · rw [if_neg c3] at h
        simp at h
  rw [if_neg c2] at h
  by_cases c4 : (splitTab line).length < 8
  · rw [if_pos c4] at h
    simp at h
  rw [if_neg c4] at h
  repeat' split at h
  all_goals
    first
    | (simp at h; done)
    | (simp only [Prod.mk.injEq, Option.some.injEq] at h
       obtain ⟨-, h2⟩ := h
       subst h2
       simp_all)

lemma vcfRun_mem {targets : List String} {v : VcfVariant} :
    ∀ (lines : List String) (g : Int), v ∈ vcfRun targets g lines →
      targets.contains v.rsid = true := by
  intro lines
  induction lines with
  | nil =>
    intro g hv
    simp [vcfRun] at hv
  | cons line rest ih =>
    intro g hv
    rw [vcfRun] at hv
    split at hv
    · rename_i g2 w heq
      rcases List.mem_cons.mp hv with rfl | hv'
      · exact vcfStep_mem_of_emit heq
      · exact ih g2 hv'
    · rename_i g2 heq
      exact ih g2 hv

lemma parse_mem_targets (vcfText : String) (targets : List String)
    (v : VcfVariant) (hv : v ∈ parseVcfForRsids vcfText targets) :
    targets.contains v.rsid = true :=
  vcfRun_mem _ _ hv

lemma startsWith_hash_of_double {line : String}
    (h : startsWithStr line "##" = true) : startsWithStr line "#" = true := by
  have e2 : ("##".toList) = ['#', '#'] := rfl
  have e1 : ("#".toList) = ['#'] := rfl
  unfold startsWithStr at h ⊢
  rw [e2] at h
  rw [e1]
  cases hc : line.toList with
  | nil => rw [hc] at h; simp [prefixOfL] at h
  | cons c cs =>
    rw [hc] at h
    simp only [prefixOfL, Bool.and_eq_true, beq_iff_eq] at h ⊢
    exact ⟨h.1, trivial⟩

lemma vcfStep_short (targets : List String) (g : Int) (line : String)
    (h1 : startsWithStr line "#" = false)
    (h2 : (splitTab line).length < 8) :
    vcfStep targets g line = (g, none) := by
  have h0 : startsWithStr line "##" = false := by
    cases hb : startsWithStr line "##"
    · rfl
    · exact absurd (startsWith_hash_of_double hb) (by simp [h1])
  simp [vcfStep, h0, h1, h2]

lemma getRiskForCYP2C19_conf (d p : String) (a : Nat) :
    80 ≤ (getRiskForCYP2C19 d p a).confidence := by
  unfold getRiskForCYP2C19
  dsimp only
  split_ifs <;> norm_num

lemma getRiskForCYP2C9_conf (d p : String) (a : Nat) :
    88 ≤ (getRiskForCYP2C9 d p a).confidence := by
  unfold getRiskForCYP2C9
  split_ifs <;> norm_num

lemma getRiskForCYP2D6_conf (d p : String) (a : Nat) :
    82 ≤ (getRiskForCYP2D6 d p a).confidence := by
  unfold getRiskForCYP2D6
  split_ifs <;> norm_num

lemma getRiskForHLA_conf (d : String) (b : Bool) :
    95 ≤ (getRiskForHLA d b).confidence := by
  unfold getRiskForHLA
  split_ifs <;> norm_num

lemma getRiskForDPYD_conf (d p : String) (a : Nat) :
    88 ≤ (getRiskForDPYD d p a).confidence := by
  unfold getRiskForDPYD
  split_ifs <;> norm_num

lemma nonempty_conf_ge (vs : List VcfVariant) (drugKey : String)
    (h : vs ≠ []) : 50 ≤ (interpretFromVcf vs drugKey).confidence := by
  rcases vs with _ | ⟨v, rest⟩
  · exact absurd rfl h
  · unfold interpretFromVcf
    have hlen : ¬ ((v :: rest).length = 0) := by simp
    rw [if_neg hlen]
    split_ifs <;> dsimp only
    · exact le_trans (by norm_num) (getRiskForCYP2C19_conf _ _ _)
    · exact le_trans (by norm_num) (getRiskForCYP2C9_conf _ _ _)
    · exact le_trans (by norm_num) (getRiskForCYP2D6_conf _ _ _)
    · exact le_trans (by norm_num) (getRiskForHLA_conf _ _)
    · exact le_trans (by norm_num) (getRiskForDPYD_conf _ _ _)
    · norm_num

/-- C2: for every drug key, the dispatcher applied to the empty extracted
variant list returns exactly the fixed `noGenotypeResult` record, whose
phenotype is the placeholder "Genotype not determined", whose risk is
AdjustDosage, and whose confidence is 0. -/
theorem dispatcher_empty_input (drugKey : String) :
    interpretFromVcf [] drugKey =
      noGenotypeResult (drugGene drugKey) (capitalize1 drugKey) ∧
    (interpretFromVcf [] drugKey).phenotype = "Genotype not determined" ∧
    (interpretFromVcf [] drugKey).risk = Risk.adjust ∧
    (interpretFromVcf [] drugKey).confidence = 0 :=
  ⟨interpret_nil drugKey, rfl, rfl, rfl⟩

/-- C5: genotype 1/1 at the CYP2C19 no-function marker rs4244285 (a
"No function" catalog entry), all other catalog markers 0/0, drug
clopidogrel: the diplotype pairs the no-function label with itself, the
phenotype is Poor Metabolizer, the risk is AdjustDosage, and the
confidence is exactly 92. -/
theorem cyp2c19_hom_lof_clopidogrel :
    cyp2c19Variant "rs4244285" = ("*2", "No function") ∧
    (interpretFromVcf c5Variants "clopidogrel").diplotype = "*2/*2" ∧
    (interpretFromVcf c5Variants "clopidogrel").phenotype = "Poor Metabolizer" ∧
    (interpretFromVcf c5Variants "clopidogrel").risk = Risk.adjust ∧
    (interpretFromVcf c5Variants "clopidogrel").confidence = 92 := by
  refine ⟨rfl, ?_, ?_, ?_, ?_⟩ <;> decide

/-- C3 counterexample: the claim predicts that a homozygous no-function
call at any catalog marker yields score 0 and phenotype Poor Metabolizer.
At the second CYP2D6 catalog marker rs5030655 (allele *6, "No function",
genotype 1/1, so two no-function alleles detected) the code instead
reports Intermediate Metabolizer, and likewise at the second CYP2C9
catalog marker rs1057910 (allele *3, "No function"): the reference entries
of earlier catalog markers occupy the two slots first. -/
theorem worst_two_selection_counterexample :
    (cyp2d6Variant "rs5030655").2 = "No function" ∧
    countVariantAlleles "1/1" = 2 ∧
    (interpretCYP2D6 [⟨"22", some 42128945, "TC", "T", "rs5030655", "1/1"⟩]).phenotype
      = "Intermediate Metabolizer" ∧
    (cyp2c9Variant "rs1057910").2 = "No function" ∧
    (interpretCYP2C9 [⟨"10", some 94981296, "A", "C", "rs1057910", "1/1"⟩]).phenotype
      = "Intermediate Metabolizer" := by
  refine ⟨rfl, rfl, ?_, rfl, ?_⟩ <;> decide

/-- C3 amended: the two allele weights are taken in catalog-iteration
order — each marker contributes a weight-1 entry on a reference call and
its variant weight once per variant allele — so a homozygous no-function
call at the FIRST catalog marker does yield score 0 and Poor Metabolizer
regardless of every other genotype (CYP2D6, rs3892097 1/1 below), while at
the first CYP2C9 catalog marker (decreased-function *2) a homozygous call
yields Intermediate Metabolizer and diplotype *2/*2 regardless of the
second marker. -/
theorem catalog_order_selection (g2 g3 g4 h2 : String) :
    ((interpretCYP2D6
        [⟨"22", some 42130692, "G", "A", "rs3892097", "1/1"⟩,
         ⟨"22", some 42128945, "TC", "T", "rs5030655", g2⟩,
         ⟨"22", some 42130527, "C", "T", "rs1065852", g3⟩,
         ⟨"22", some 42127941, "G", "A", "rs28371725", g4⟩]).phenotype
      = "Poor Metabolizer") ∧
    ((interpretCYP2D6
        [⟨"22", some 42130692, "G", "A", "rs3892097", "1/1"⟩,
         ⟨"22", some 42128945, "TC", "T", "rs5030655", g2⟩,
         ⟨"22", some 42130527, "C", "T", "rs1065852", g3⟩,
         ⟨"22", some 42127941, "G", "A", "rs28371725", g4⟩]).activityLevel = 0) ∧
    ((interpretCYP2D6
        [⟨"22", some 42130692, "G", "A", "rs3892097", "1/1"⟩,
         ⟨"22", some 42128945, "TC", "T", "rs5030655", g2⟩,
         ⟨"22", some 42130527, "C", "T", "rs1065852", g3⟩,
         ⟨"22", some 42127941, "G", "A", "rs28371725", g4⟩]).diplotype
      = "*4/*4") ∧
    ((interpretCYP2C9
        [⟨"10", some 94942290, "C", "T", "rs1799853", "1/1"⟩,
         ⟨"10", some 94981296, "A", "C", "rs1057910", h2⟩]).phenotype
      = "Intermediate Metabolizer") ∧
    ((interpretCYP2C9
        [⟨"10", some 94942290, "C", "T", "rs1799853", "1/1"⟩,
         ⟨"10", some 94981296, "A", "C", "rs1057910", h2⟩]).diplotype
      = "*2/*2") :=
  ⟨rfl, rfl, rfl, rfl, rfl⟩

/-- C4 counterexample: "aspirin" is not a key of the drug-gene map, yet the
pipeline does not return the "not implemented" fallback with confidence
50: on a non-empty variant list it returns a CYP2C19 interpretation with
confidence 90. -/
theorem unknown_drug_counterexample :
    DRUG_GENE_MAP.lookup "aspirin" = none ∧
    (interpretFromVcf [⟨"10", some 94781859, "G", "A", "rs4244285", "0/0"⟩]
        "aspirin").gene = "CYP2C19" ∧
    (interpretFromVcf [⟨"10", some 94781859, "G", "A", "rs4244285", "0/0"⟩]
        "aspirin").confidence = 90 ∧
    (interpretFromVcf [⟨"10", some 94781859, "G", "A", "rs4244285", "0/0"⟩]
        "aspirin").risk = Risk.safe := by
  refine ⟨rfl, ?_, ?_, ?_⟩ <;> decide

/-- C4 amended: a drug key that is neither an own entry of the drug-gene
map nor the name of an inherited `Object.prototype` member is silently
defaulted to gene CYP2C19 and interpreted by the CYP2C19 path, never with
confidence 50; a key naming an inherited `Object.prototype` member (such
as "toString") escapes the CYP2C19 default — the inherited value is
truthy — and on non-empty input does reach the distinguished "not
implemented" fallback with risk Safe and confidence exactly 50. The
dispatcher is a total function either way, so it never crashes. -/
theorem unknown_drug_dispatch :
    (∀ (vs : List VcfVariant) (drugKey : String),
      DRUG_GENE_MAP.lookup drugKey = none →
      OBJECT_PROTOTYPE_MEMBERS.contains drugKey = false →
      (interpretFromVcf vs drugKey).gene = "CYP2C19" ∧
      (interpretFromVcf vs drugKey).confidence ≠ 50) ∧
    (∀ (vs : List VcfVariant) (drugKey : String),
      DRUG_GENE_MAP.lookup drugKey = none →
      OBJECT_PROTOTYPE_MEMBERS.contains drugKey = true →
      vs ≠ [] →
      (interpretFromVcf vs drugKey).risk = Risk.safe ∧
      (interpretFromVcf vs drugKey).confidence = 50) := by
  constructor
  · intro vs drugKey h hp
    have hp2 : drugKey ∉ OBJECT_PROTOTYPE_MEMBERS := by simpa using hp
    have hg : drugGene drugKey = GeneVal.str "CYP2C19" := by
      simp [drugGene, h, hp2]
    rcases vs with _ | ⟨v, rest⟩
    · rw [interpret_nil, hg]
      exact ⟨rfl, by simp [noGenotypeResult]⟩
    · unfold interpretFromVcf
      rw [hg]
      have hlen : ¬ ((v :: rest).length = 0) := by simp
      rw [if_neg hlen, if_pos rfl]
      refine ⟨rfl, ?_⟩
      have := getRiskForCYP2C19_conf (capitalize1 drugKey)
        (interpretCYP2C19 (v :: rest)).phenotype
        (interpretCYP2C19 (v :: rest)).activityLevel
      dsimp only
      omega
  · intro vs drugKey h hp hne
    have hp2 : drugKey ∈ OBJECT_PROTOTYPE_MEMBERS := by simpa using hp
    have hg : drugGene drugKey = GeneVal.protoMember drugKey := by
      simp [drugGene, h, hp2]
    rcases vs with _ | ⟨v, rest⟩
    · exact absurd rfl hne
    · unfold interpretFromVcf
      rw [hg]
      have hlen : ¬ ((v :: rest).length = 0) := by simp
      rw [if_neg hlen, if_neg (by simp), if_neg (by simp), if_neg (by simp),
        if_neg (by simp), if_neg (by simp)]
      exact ⟨rfl, rfl⟩

/-- Witness for C4: the ordinary unmapped key "aspirin" takes the CYP2C19
default, and the inherited-member key "toString" reaches the confidence-50
fallback on non-empty input. -/
theorem unknown_drug_dispatch_witness :
    (DRUG_GENE_MAP.lookup "aspirin" = none ∧
      (interpretFromVcf [] "aspirin").gene = "CYP2C19") ∧
    (DRUG_GENE_MAP.lookup "toString" = none ∧
      (interpretFromVcf [⟨"10", some 94781859, "G", "A", "rs4244285", "0/0"⟩]
        "toString").confidence = 50) :=
  ⟨⟨by decide, (unknown_drug_dispatch.1 [] "aspirin" (by decide) (by decide)).1⟩,
   ⟨by decide,
    (unknown_drug_dispatch.2
      [⟨"10", some 94781859, "G", "A", "rs4244285", "0/0"⟩] "toString"
      (by decide) (by decide) (by decide)).2⟩⟩

/-- C1 counterexample: a non-empty variant list that does not contain the
abacavir marker rs2395029 is classified phenotype "Negative" and diplotype
"Non-carrier" by the carrier-status path, not "not genotyped" (only the
marker-level row is labelled "Not genotyped in this file"). -/
theorem hla_marker_absent_counterexample :
    (∀ v ∈ [(⟨"6", some 31431780, "C", "T", "rs9999", "0/1"⟩ : VcfVariant)],
      v.rsid ≠ "rs2395029") ∧
    (interpretFromVcf [⟨"6", some 31431780, "C", "T", "rs9999", "0/1"⟩]
        "abacavir").phenotype = "Negative" ∧
    (interpretFromVcf [⟨"6", some 31431780, "C", "T", "rs9999", "0/1"⟩]
        "abacavir").diplotype = "Non-carrier" ∧
    (interpretHLA [⟨"6", some 31431780, "C", "T", "rs9999", "0/1"⟩]
        "abacavir").phenotype = "Negative" := by
  refine ⟨by decide, ?_, ?_, ?_⟩ <;> decide

/-- C1 amended: in the actual pipeline, extraction for a carrier-status
drug targets exactly the one drug-specific marker, so a file from which
that marker is absent yields an empty extracted list and the dispatcher
reports phenotype "Genotype not determined" — never "Negative" and never
diplotype "Non-carrier". (A non-empty list lacking the marker, passed
directly to the interpreter, is classified Negative instead; see the
counterexample.) -/
theorem hla_marker_absent_pipeline (vcfText : String)
    (h : ∀ v ∈ parseVcf vcfText (getRsidsForDrug "abacavir"),
      v.rsid ≠ "rs2395029") :
    (interpretFromVcf (parseVcf vcfText (getRsidsForDrug "abacavir"))
        "abacavir").phenotype = "Genotype not determined" ∧
    (interpretFromVcf (parseVcf vcfText (getRsidsForDrug "abacavir"))
        "abacavir").phenotype ≠ "Negative" ∧
    (interpretFromVcf (parseVcf vcfText (getRsidsForDrug "abacavir"))
        "abacavir").diplotype ≠ "Non-carrier" := by
  have hnil : parseVcf vcfText (getRsidsForDrug "abacavir") = [] := by
    rcases he : parseVcf vcfText (getRsidsForDrug "abacavir") with _ | ⟨v, rest⟩
    · rfl
    · exfalso
      have hv : v ∈ parseVcf vcfText (getRsidsForDrug "abacavir") := by
        rw [he]; exact List.mem_cons_self v rest
      have hv' : v ∈ parseVcfForRsids vcfText ["rs2395029"] := hv
      have hc := parse_mem_targets vcfText ["rs2395029"] v hv'
      simp only [List.contains_cons, List.contains_nil, Bool.or_false,
        beq_iff_eq] at hc
      exact h v hv hc
  rw [hnil]
  refine ⟨rfl, by decide, by decide⟩

/-- Witness for C1 amended at the empty file. -/
theorem hla_marker_absent_pipeline_witness :
    (interpretFromVcf (parseVcf "" (getRsidsForDrug "abacavir"))
        "abacavir").phenotype = "Genotype not determined" :=
  (hla_marker_absent_pipeline "" (by decide)).1


lemma dpyd_half_formula (n d : Nat) :
    ((jsMaxI 0 (4 - 2 * jsMinI 2 (n : Int) -
        jsMinI (2 - jsMinI 2 (n : Int)) (d : Int)) : Int) : ℚ) =
      2 * max 0 ((2 : ℚ) - min 2 (n : ℚ) -
        (1 / 2) * min ((2 : ℚ) - min 2 (n : ℚ)) (d : ℚ)) := by
  rcases le_or_lt 2 n with hn | hn
  · have h1 : jsMinI 2 (n : Int) = 2 := by
      unfold jsMinI
      rw [if_pos (by exact_mod_cast hn)]
    have h2 : min (2 : ℚ) (n : ℚ) = 2 := min_eq_left (by exact_mod_cast hn)
    have h3 : jsMinI ((2 : Int) - 2) (d : Int) = 0 := by
      unfold jsMinI
      rw [if_pos (by omega)]
      norm_num
    have h4 : min ((2 : ℚ) - 2) (d : ℚ) = 0 := by
      rw [show (2 : ℚ) - 2 = 0 by ring]
      exact min_eq_left (by positivity)
    rw [h1, h2, h3, h4]
    unfold jsMaxI
    norm_num
  · have h1 : jsMinI 2 (n : Int) = n := by
      unfold jsMinI
      rw [if_neg (by omega)]
    have h2 : min (2 : ℚ) (n : ℚ) = n :=
      min_eq_right (by exact_mod_cast hn.le)
    rw [h1, h2]
    have hn2 : (n : ℚ) ≤ 2 := by exact_mod_cast hn.le
    rcases le_or_lt ((2 : Int) - n) (d : Int) with hd | hd
    · have h3 : jsMinI ((2 : Int) - n) (d : Int) = 2 - n := by
        unfold jsMinI
        rw [if_pos hd]
      have h4 : min ((2 : ℚ) - n) (d : ℚ) = (2 : ℚ) - n :=
        min_eq_left (by exact_mod_cast hd)
      rw [h3, h4]
      have h5 : jsMaxI 0 (4 - 2 * (n : Int) - ((2 : Int) - n)) = 2 - n := by
        unfold jsMaxI
        rw [if_pos (by omega)]
        ring
      rw [h5]
      rw [max_eq_right (by linarith)]
      push_cast
      ring
    · have h3 : jsMinI ((2 : Int) - n) (d : Int) = d := by
        unfold jsMinI
        rw [if_neg (by omega)]
      have h4 : min ((2 : ℚ) - n) (d : ℚ) = d := by
        refine min_eq_right ?_
        exact_mod_cast show (d : Int) ≤ 2 - n by omega
      rw [h3, h4]
      have hd2 : (d : ℚ) ≤ (2 : ℚ) - n := by
        exact_mod_cast show (d : Int) ≤ 2 - n by omega
      have h5 : jsMaxI 0 (4 - 2 * (n : Int) - (d : Int)) =
          4 - 2 * n - d := by
        unfold jsMaxI
        rw [if_pos (by omega)]
      rw [h5]
      rw [max_eq_right (by linarith)]
      push_cast
      ring

/-- C6: the DPYD remaining activity follows the capped-subtraction formula
`max(0, 2 - noFunc - 0.5 * min(2 - noFunc, dec))` with `noFunc` capped at 2
(stated in `ℚ`, where `dpydActivityH` is twice the source score), and any
input carrying two no-function variant alleles is DPD Deficient with
activity 0 regardless of decreased-function calls also present. -/
theorem dpyd_two_nofunction_deficient :
    (∀ vs, ((dpydActivityH vs : ℚ)) =
      2 * max 0 ((2 : ℚ) - min 2 (dpydNoFuncRaw vs : ℚ) -
        (1 / 2) * min ((2 : ℚ) - min 2 (dpydNoFuncRaw vs : ℚ))
          (dpydDec vs : ℚ))) ∧
    (∀ vs, (2 ≤ countVariantAlleles (genotypeAt vs "rs3918290") ∨
        2 ≤ countVariantAlleles (genotypeAt vs "rs55886062")) →
      (interpretDPYD vs).phenotype = "DPD Deficient" ∧
      (interpretDPYD vs).activityLevel = 0 ∧
      dpydActivityH vs = 0) := by
  constructor
  · intro vs
    exact dpyd_half_formula (dpydNoFuncRaw vs) (dpydDec vs)
  · intro vs h
    have hraw : 2 ≤ dpydNoFuncRaw vs := by
      have e : dpydNoFuncRaw vs =
          jsMaxN (jsMaxN 0 (countVariantAlleles (genotypeAt vs "rs3918290")))
            (countVariantAlleles (genotypeAt vs "rs55886062")) := rfl
      rw [e]
      unfold jsMaxN
      rcases h with h | h <;> split_ifs <;> omega
    have hact : dpydActivityH vs = 0 := by
      simp only [dpydActivityH, jsMinI, jsMaxI]
      split_ifs <;> omega
    refine ⟨?_, ?_, hact⟩ <;> simp [interpretDPYD, hact]

/-- Witness for C6: homozygous rs3918290 with a homozygous
decreased-function rs67376798 call also present. -/
theorem dpyd_two_nofunction_deficient_witness :
    2 ≤ countVariantAlleles (genotypeAt c6Variants "rs3918290") ∧
    (interpretDPYD c6Variants).phenotype = "DPD Deficient" :=
  ⟨by decide,
    (dpyd_two_nofunction_deficient.2 c6Variants (Or.inl (by decide))).1⟩

/-- C7 counterexample: the pipeline itself can derive a variant-allele
count of 3 — a data line whose first-sample genotype field is `1/1/1` is
extracted verbatim by `parseVcf`, and `countVariantAlleles` on it returns
3, outside {0, 1, 2}. -/
theorem variant_allele_count_counterexample :
    parseVcf c7Text ["rs4244285"] =
      [⟨"1", some 100, "G", "A", "rs4244285", "1/1/1"⟩] ∧
    countVariantAlleles "1/1/1" = 3 ∧
    ¬ countVariantAlleles "1/1/1" ≤ 2 := by
  refine ⟨?_, ?_, ?_⟩ <;> decide

/-- C7 amended: the derived variant-allele count equals the number of
genotype fields that parse to an integer at least 1, so it lies in
{0, 1, 2} for every genotype string with at most two fields (every
standard diploid call, `.` counting as 0) — but a string with more than
two separator-delimited fields can exceed 2. -/
theorem variant_allele_count_bounded (gt : String)
    (h : (splitSlashPipe gt).length ≤ 2) : countVariantAlleles gt ≤ 2 := by
  calc countVariantAlleles gt
      ≤ ((splitSlashPipe gt).map
          (fun x => if x = "." then none else jsParseInt x)).length :=
        List.length_filter_le _ _
    _ = (splitSlashPipe gt).length := by simp
    _ ≤ 2 := h

/-- Witness for C7 amended at the diploid call `0/1`. -/
theorem variant_allele_count_bounded_witness :
    (splitSlashPipe "0/1").length ≤ 2 ∧ countVariantAlleles "0/1" ≤ 2 :=
  ⟨by decide, variant_allele_count_bounded "0/1" (by decide)⟩

/-- C8: every genotype call returned by the extractor has an identifier in
the requested set (markers absent from the file are simply omitted — the
extractor is total and returns only matching calls), and a non-header data
line with fewer than 8 tab-separated columns contributes no call and
leaves the parser state unchanged. -/
theorem parser_soundness :
    (∀ (vcfText : String) (targetRsids : List String), targetRsids ≠ [] →
      ∀ v ∈ parseVcfForRsids vcfText targetRsids,
        targetRsids.contains v.rsid = true) ∧
    (∀ (targetRsids : List String) (gtIdx : Int) (line : String),
      startsWithStr line "#" = false → (splitTab line).length < 8 →
      vcfStep targetRsids gtIdx line = (gtIdx, none)) :=
  ⟨fun vcfText targetRsids _ v hv => parse_mem_targets vcfText targetRsids v hv,
   fun targetRsids gtIdx line h1 h2 => vcfStep_short targetRsids gtIdx line h1 h2⟩

/-- Witness for C8: a matching call from a concrete file has its rsid in
the requested set, and a concrete 2-column line is skipped. -/
theorem parser_soundness_witness :
    (["rs1799853"].contains
      (⟨"7", some 200, "C", "T", "rs1799853", "./."⟩ : VcfVariant).rsid = true) ∧
    vcfStep ["rs1799853"] (-1) "7\t200" = (-1, none) :=
  ⟨parser_soundness.1 c8Text ["rs1799853"] (by decide)
      ⟨"7", some 200, "C", "T", "rs1799853", "./."⟩ (by decide),
   parser_soundness.2 ["rs1799853"] (-1) "7\t200" (by decide) (by decide)⟩

/-- C9: the CYP2D6 diplotype label is a function of the two selected
activity weights alone — weight 0 rendered "*4", weight 0.5 (1 in
half-units) rendered "*10", weight 1 (2 here) rendered "*1" — so equal
selected weights force equal labels; concretely a detected rs5030655 (*6)
variant is printed as "*4", an allele label not evidenced by any matched
marker row. -/
theorem cyp2d6_diplotype_from_weights :
    (∀ vs, (interpretCYP2D6 vs).diplotype =
      cyp2d6WeightName ((cyp2d6Selected vs).getD 0 2) ++ "/" ++
        cyp2d6WeightName ((cyp2d6Selected vs).getD 1 2)) ∧
    (∀ vs1 vs2, cyp2d6Selected vs1 = cyp2d6Selected vs2 →
      (interpretCYP2D6 vs1).diplotype = (interpretCYP2D6 vs2).diplotype) ∧
    ((interpretCYP2D6
        [⟨"22", some 42126611, "AG", "A", "rs5030655", "0/1"⟩]).diplotype
      = "*1/*4" ∧
     (⟨"rs5030655", "CYP2D6", "*6", "No function"⟩ : VariantRow) ∈
       (interpretCYP2D6
         [⟨"22", some 42126611, "AG", "A", "rs5030655", "0/1"⟩]).variantRows ∧
     ∀ r ∈ (interpretCYP2D6
         [⟨"22", some 42126611, "AG", "A", "rs5030655", "0/1"⟩]).variantRows,
       r.allele ≠ "*4") := by
  have hmain : ∀ vs, (interpretCYP2D6 vs).diplotype =
      cyp2d6WeightName ((cyp2d6Selected vs).getD 0 2) ++ "/" ++
        cyp2d6WeightName ((cyp2d6Selected vs).getD 1 2) := by
    intro vs
    have e : (interpretCYP2D6 vs).diplotype =
        ((cyp2d6Selected vs).map cyp2d6WeightName).getD 0 "*1" ++ "/" ++
          ((cyp2d6Selected vs).map cyp2d6WeightName).getD 1 "*1" := rfl
    rw [e, cyp2d6WeightName_getD, cyp2d6WeightName_getD]
  refine ⟨hmain, fun vs1 vs2 h => by rw [hmain, hmain, h], ?_, ?_, ?_⟩
  · decide
  · decide
  · decide

/-- Witness for C9: two different variant lists with equal selected
weights receive the same diplotype label. -/
theorem cyp2d6_diplotype_from_weights_witness :
    (interpretCYP2D6 [⟨"22", some 1, "G", "A", "rs5030655", "0/1"⟩]).diplotype =
      (interpretCYP2D6 [⟨"22", some 2, "T", "C", "rs5030655", "0|1"⟩]).diplotype :=
  cyp2d6_diplotype_from_weights.2.1 _ _ (by decide)

/-- C10: the final interpretation has confidence 0 exactly when the input
variant list is empty, and every non-empty list yields confidence at
least 50, for every drug key. -/
theorem confidence_zero_iff_empty (vs : List VcfVariant) (drugKey : String) :
    ((interpretFromVcf vs drugKey).confidence = 0 ↔ vs = []) ∧
    (vs ≠ [] → 50 ≤ (interpretFromVcf vs drugKey).confidence) := by
  have hmain := nonempty_conf_ge vs drugKey
  constructor
  · constructor
    · intro h0
      by_contra hne
      have := hmain hne
      omega
    · intro h
      subst h
      rw [interpret_nil]
      rfl
  · exact hmain

/-- Witness for C10 at a concrete one-variant list and the drug codeine. -/
theorem confidence_zero_iff_empty_witness :
    50 ≤ (interpretFromVcf
      [⟨"22", some 42130692, "G", "A", "rs3892097", "0/1"⟩]
      "codeine").confidence :=
  (confidence_zero_iff_empty
    [⟨"22", some 42130692, "G", "A", "rs3892097", "0/1"⟩] "codeine").2
    (by decide)

end PGx




